import Mathlib

/-!
# Verification of the IBC client validity predicate

A shallow embedding of the client-module validity predicate from
`shared/src/ledger/ibc/client.rs`, together with proofs of the
specified properties.

The predicate itself (classification, dispatch, the creation / update /
upgrade validators, the posterior and prior storage accessors and the
client-id extraction) is translated directly from the source.  External
collaborators that the source only calls into — the storage snapshot
capability, the binary decoders for stored values and transaction
payloads, and the per-client-type header / upgrade verifiers — are
taken as explicit function-valued fields of the `Ibc` context record,
mirroring how the Rust code reaches them through trait objects and
library functions.  Repository code that the source uses but that is
not part of the client module (the storage path codec, the state-change
classifier, the payload data types) is modelled from the specification;
each such definition is marked `Modelled from the spec:`.
-/

namespace IbcClient

/-- A storage height: `(revision_number, revision_height)`. -/
structure Height where
  revision_number : Nat
  revision_height : Nat
deriving DecidableEq, Repr

/-- Client types are tags naming the per-client-type verifier family. -/
abbrev ClientType := String

/-- A decoded `AnyClientState`: the source only uses `client_type()`,
`latest_height()` and value equality, so the remaining content is kept
as one opaque field. -/
structure ClientState where
  client_type : ClientType
  latest_height : Height
  rest : Nat
deriving DecidableEq, Repr

/-- A decoded `AnyConsensusState`: the source only uses `client_type()`
and value equality. -/
structure ConsensusState where
  client_type : ClientType
  rest : Nat
deriving DecidableEq, Repr

/-- Headers are consumed only by the per-client-type verifier. -/
abbrev Header := Nat

/-- Merkle proofs are consumed only by the per-client-type verifier. -/
abbrev Proof := Nat

/-- Raw storage / payload bytes. -/
abbrev Bytes := List Nat

/-- Modelled from the spec: a storage key is the sequence of segments of
the canonical path string (spec section 6, keys of the form
`ibc/clients/(id)/clientState`); the `Key` type itself lives in
`core/src/types/storage.rs`, outside the sources. -/
structure Key where
  segments : List String
deriving DecidableEq, Repr

/-- The canonical string form of a key (segments joined by the path
separator), used only inside error messages. -/
def Key.str (k : Key) : String := String.intercalate "/" k.segments

/-- Modelled from the spec: the path codec maps a client id to the
client-type key `ibc/clients/(id)/clientType`. -/
def clientTypeKey (id : String) : Key := ⟨["ibc", "clients", id, "clientType"]⟩

/-- Modelled from the spec: the path codec maps a client id to the
client-state key `ibc/clients/(id)/clientState`. -/
def clientStateKey (id : String) : Key := ⟨["ibc", "clients", id, "clientState"]⟩

/-- Render a height the way error messages do. -/
def Height.str (h : Height) : String :=
  toString h.revision_number ++ "-" ++ toString h.revision_height

/-- Modelled from the spec: the path codec maps a client id and a height
to the consensus-state key
`ibc/clients/(id)/consensusStates/(revision_number)-(revision_height)`. -/
def consensusStateKey (id : String) (h : Height) : Key :=
  ⟨["ibc", "clients", id, "consensusStates", h.str]⟩

/-- Modelled from the spec: the client-counter key `ibc/clients/counter`. -/
def clientCounterKey : Key := ⟨["ibc", "clients", "counter"]⟩

/-- Modelled from the spec: client ids are string-parseable identifiers
embedded in path-separated storage keys, so parsing (the library
`ClientId::from_str`) rejects the empty string and any string whose
characters include the path separator, and is the identity
elsewhere. -/
def clientIdFromStr (s : String) : Except String String :=
  if s = "" then .error "empty client id"
  else if s.data.contains '/' then .error ("invalid client id: " ++ s)
  else .ok s

/-- A string is a well-formed client id when `clientIdFromStr` accepts it. -/
def validClientId (s : String) : Bool :=
  decide (s ≠ "") && !(s.data.contains '/')

/-- The error enum of the client validity predicate, one constructor per
source variant; each carries its rendered message (for
`DecodingTxDataError` and `IbcDataError`, the rendered nested error). -/
inductive Error where
  | KeyError : String → Error
  | StateChangeError : String → Error
  | ClientError : String → Error
  | HeaderError : String → Error
  | ProofVerificationError : String → Error
  | DecodingTxDataError : String → Error
  | IbcDataError : String → Error
deriving DecidableEq, Repr

/-- Result of one storage point read: `Ok(Some(bytes))`, `Ok(None)`, or
`Err(e)` from the underlying database. -/
inductive StorageRead where
  | found : Bytes → StorageRead
  | absent : StorageRead
  | failed : String → StorageRead
deriving DecidableEq, Repr

/-- Modelled from the spec: the classified state change of a client
state key, derived from pre/post existence (spec section 4.2); the
enum lives in `shared/src/ledger/ibc/mod.rs`, outside the sources. -/
inductive StateChange where
  | NotExists : StateChange
  | Created : StateChange
  | Updated : StateChange
  | Deleted : StateChange
deriving DecidableEq, Repr

/-- Modelled from the spec: `ClientUpdateData` carries a client id and
an ordered header sequence (spec section 3); its accessors re-decode
embedded fields and can fail with an `IbcDataError`, so each field is
kept as the accessor result.  The type lives in `core/src/types/ibc.rs`,
outside the sources. -/
structure ClientUpdateData where
  client_id : Except String String
  headers : Except String (List Header)

/-- Modelled from the spec: `ClientUpgradeData` carries a client id and
two proofs (spec section 3); fields are accessor results as in
`ClientUpdateData`.  The type lives in `core/src/types/ibc.rs`. -/
structure ClientUpgradeData where
  client_id : Except String String
  proof_client : Except String Proof
  proof_consensus_state : Except String Proof

/-- The validation context: the two snapshot read capabilities consumed
through `self.ctx`, the library decoders for stored values and
transaction payloads, and the per-client-type verifier capability
(`AnyClient::from_client_type` followed by the verifier method is
modelled as a function keyed by the client type). -/
structure Ibc where
  read_pre : Key → StorageRead
  read_post : Key → StorageRead
  decodeClientType : Bytes → Option ClientType
  decodeClientState : Bytes → Except String ClientState
  decodeConsensusState : Bytes → Except String ConsensusState
  decodeCounter : Bytes → Except String Nat
  decodeUpdateData : Bytes → Except String ClientUpdateData
  decodeUpgradeData : Bytes → Except String ClientUpgradeData
  check_header_and_update_state :
    ClientType → ClientState → Header → Except String (ClientState × ConsensusState)
  verify_upgrade_and_update_state :
    ClientType → ClientState → ConsensusState → Proof → Proof →
      Except String (ClientState × ConsensusState)

/-- Source `ClientReader::client_type`: posterior read of the client type,
degrading to `none` on a missing key, a failed read, or an
undecodable value. -/
def Ibc.client_type (ibc : Ibc) (client_id : String) : Option ClientType :=
  match ibc.read_post (clientTypeKey client_id) with
  | .found value => ibc.decodeClientType value
  | _ => none

/-- Source `ClientReader::client_state`: posterior read of the client state,
degrading to `none` under the same tolerance. -/
def Ibc.client_state (ibc : Ibc) (client_id : String) : Option ClientState :=
  match ibc.read_post (clientStateKey client_id) with
  | .found value => (ibc.decodeClientState value).toOption
  | _ => none

/-- Source `ClientReader::consensus_state`: posterior read of the consensus
state at a height, degrading to `none` under the same tolerance. -/
def Ibc.consensus_state (ibc : Ibc) (client_id : String) (height : Height) :
    Option ConsensusState :=
  match ibc.read_post (consensusStateKey client_id height) with
  | .found value => (ibc.decodeConsensusState value).toOption
  | _ => none

/-- Outcome of `ClientReader::client_counter`, whose missing-key branch
executes `unreachable!()`: `unreach` marks that panic. -/
inductive CounterResult where
  | value : Nat → CounterResult
  | unreach : CounterResult
deriving DecidableEq, Repr

/-- Source `ClientReader::client_counter`: posterior read of the counter; an
undecodable value is logged and degrades to `u64::MIN` (zero), while a
missing key or failed read hits `unreachable!()`. -/
def Ibc.client_counter (ibc : Ibc) : CounterResult :=
  match ibc.read_post clientCounterKey with
  | .found value =>
    match ibc.decodeCounter value with
    | .ok c => .value c
    | .error _ => .value 0
  | _ => .unreach

/-- Source `client_state_pre`: prior client state; any missing key, failed
read, or decode failure is a `ClientError` naming the client id. -/
def Ibc.client_state_pre (ibc : Ibc) (client_id : String) :
    Except Error ClientState :=
  match ibc.read_pre (clientStateKey client_id) with
  | .found value =>
    match ibc.decodeClientState value with
    | .ok s => .ok s
    | .error e =>
      .error (.ClientError
        ("Decoding the client state failed: ID " ++ client_id ++ ", " ++ e))
  | _ =>
    .error (.ClientError
      ("The prior client state does not exist: ID " ++ client_id))

/-- Source `client_counter_pre`: despite its name, the source reads the
counter through `read_post`; decode failures and missing keys are
`ClientError`s. -/
def Ibc.client_counter_pre (ibc : Ibc) : Except Error Nat :=
  match ibc.read_post clientCounterKey with
  | .found value =>
    match ibc.decodeCounter value with
    | .ok c => .ok c
    | .error e =>
      .error (.ClientError ("Decoding the client counter failed: " ++ e))
  | _ => .error (.ClientError "The client counter does not exist")

/-- Source `consensus_state_pre`: prior consensus state at a height; any
missing key, failed read, or decode failure is a `ClientError` naming
the client id and the height. -/
def Ibc.consensus_state_pre (ibc : Ibc) (client_id : String) (height : Height) :
    Except Error ConsensusState :=
  match ibc.read_pre (consensusStateKey client_id height) with
  | .found value =>
    match ibc.decodeConsensusState value with
    | .ok s => .ok s
    | .error e =>
      .error (.ClientError
        ("Decoding the consensus state failed: ID " ++ client_id ++
          ", Height " ++ height.str ++ ", " ++ e))
  | _ =>
    .error (.ClientError
      ("The prior consensus state does not exist: ID " ++ client_id ++
        ", Height " ++ height.str))

/-- Source `get_client_id`: the client id sits in the key segment after
`ibc/clients`; a missing segment or a failed parse is a `KeyError`. -/
def get_client_id (key : Key) : Except Error String :=
  match key.segments.get? 2 with
  | some id =>
    match clientIdFromStr id with
    | .ok cid => .ok cid
    | .error e => .error (.KeyError e)
  | none =>
    .error (.KeyError ("The key does not have a client ID: " ++ key.str))

/-- Modelled from the spec: `get_state_change` (in
`shared/src/ledger/ibc/mod.rs`, outside the sources) classifies a key
by its pre/post existence: absent-absent is `NotExists`, absent-present
is `Created`, present-present is `Updated`, present-absent is
`Deleted`, and an underlying read failure is an error (spec
section 4.2). -/
def Ibc.get_state_change (ibc : Ibc) (key : Key) : Except String StateChange :=
  match ibc.read_pre key, ibc.read_post key with
  | .failed e, _ => .error e
  | _, .failed e => .error e
  | .absent, .absent => .ok .NotExists
  | .absent, .found _ => .ok .Created
  | .found _, .absent => .ok .Deleted
  | .found _, .found _ => .ok .Updated

/-- Source `get_client_state_change`: classify the client-state key, wrapping
any failure as a `StateChangeError`. -/
def Ibc.get_client_state_change (ibc : Ibc) (client_id : String) :
    Except Error StateChange :=
  match ibc.get_state_change (clientStateKey client_id) with
  | .ok sc => .ok sc
  | .error e => .error (.StateChangeError e)

/-- Source `validate_created_client`: the posterior client type, client state,
and consensus state at the client state's latest height must exist
(else `ClientError`); the boolean result is the agreement of the
recorded type with both reported types. -/
def Ibc.validate_created_client (ibc : Ibc) (client_id : String) :
    Except Error Bool :=
  match ibc.client_type client_id with
  | none =>
    .error (.ClientError ("The client type does not exist: ID " ++ client_id))
  | some client_type =>
    match ibc.client_state client_id with
    | none =>
      .error (.ClientError
        ("The client state does not exist: ID " ++ client_id))
    | some client_state =>
      let height := client_state.latest_height
      match ibc.consensus_state client_id height with
      | none =>
        .error (.ClientError
          ("The consensus state does not exist: ID " ++ client_id ++
            ", Height " ++ height.str))
      | some consensus_state =>
        .ok (decide (client_type = client_state.client_type ∧
          client_type = consensus_state.client_type))

/-- The `try_fold` of `verify_update_client`: sequentially verify each
header, threading the `(ClientState, ConsensusState)` accumulator; each
step hands the accumulated client state (the consensus component of the
accumulator is discarded by the closure's pattern) and one header to
the per-client-type verifier, short-circuiting on its first failure. -/
def headerFold (check : ClientState → Header → Except String (ClientState × ConsensusState)) :
    ClientState × ConsensusState → List Header →
      Except String (ClientState × ConsensusState)
  | acc, [] => .ok acc
  | acc, header :: rest =>
    match check acc.1 header with
    | .ok next => headerFold check next rest
    | .error e => .error e

/-- Source `verify_update_client`: id match, posterior reads, prior reads,
header fold, and the final value-for-value comparison. -/
def Ibc.verify_update_client (ibc : Ibc) (client_id : String)
    (data : ClientUpdateData) : Except Error Bool :=
  match data.client_id with
  | .error e => .error (.IbcDataError e)
  | .ok id =>
    if id ≠ client_id then
      .error (.ClientError
        ("The client ID is mismatched: " ++ id ++ " in the tx data, " ++
          client_id ++ " in the key"))
    else
      match ibc.client_state client_id with
      | none =>
        .error (.ClientError
          ("The client state does not exist: ID " ++ client_id))
      | some client_state =>
        let height := client_state.latest_height
        match ibc.consensus_state client_id height with
        | none =>
          .error (.ClientError
            ("The consensus state does not exist: ID " ++ client_id ++
              ", Height " ++ height.str))
        | some consensus_state =>
          match ibc.client_state_pre client_id with
          | .error e => .error e
          | .ok prev_client_state =>
            match ibc.consensus_state_pre client_id
                prev_client_state.latest_height with
            | .error e => .error e
            | .ok prev_consensus_state =>
              match data.headers with
              | .error e => .error (.IbcDataError e)
              | .ok headers =>
                match headerFold
                    (ibc.check_header_and_update_state
                      client_state.client_type)
                    (prev_client_state, prev_consensus_state) headers with
                | .ok (new_client_state, new_consensus_state) =>
                  .ok (decide (new_client_state = client_state ∧
                    new_consensus_state = consensus_state))
                | .error e =>
                  .error (.HeaderError
                    ("The header is invalid: ID " ++ client_id ++ ", " ++ e))

/-- Source `verify_upgrade_client`: id match, posterior reads, prior client
state, proof extraction, proof verification, and the final
value-for-value comparison. -/
def Ibc.verify_upgrade_client (ibc : Ibc) (client_id : String)
    (data : ClientUpgradeData) : Except Error Bool :=
  match data.client_id with
  | .error e => .error (.IbcDataError e)
  | .ok id =>
    if id ≠ client_id then
      .error (.ClientError
        ("The client ID is mismatched: " ++ id ++ " in the tx data, " ++
          client_id ++ " in the key"))
    else
      match ibc.client_state client_id with
      | none =>
        .error (.ClientError
          ("The client state does not exist: ID " ++ client_id))
      | some client_state =>
        let height := client_state.latest_height
        match ibc.consensus_state client_id height with
        | none =>
          .error (.ClientError
            ("The consensus state does not exist: ID " ++ client_id ++
              ", Height " ++ height.str))
        | some consensus_state =>
          match ibc.client_state_pre client_id with
          | .error e => .error e
          | .ok pre_client_state =>
            match data.proof_client with
            | .error e => .error (.IbcDataError e)
            | .ok client_proof =>
              match data.proof_consensus_state with
              | .error e => .error (.IbcDataError e)
              | .ok consensus_proof =>
                match ibc.verify_upgrade_and_update_state
                    client_state.client_type pre_client_state
                    consensus_state client_proof consensus_proof with
                | .ok (new_client_state, new_consensus_state) =>
                  .ok (decide (new_client_state = client_state ∧
                    new_consensus_state = consensus_state))
                | .error e => .error (.ProofVerificationError e)

/-- Source `validate_updated_client`: try the payload as `ClientUpdateData`
first; only on decode failure try `ClientUpgradeData`, whose decode
failure is terminal (`From` for `std::io::Error` wraps it as
`DecodingTxDataError`). -/
def Ibc.validate_updated_client (ibc : Ibc) (client_id : String)
    (tx_data : Bytes) : Except Error Bool :=
  match ibc.decodeUpdateData tx_data with
  | .ok data => ibc.verify_update_client client_id data
  | .error _ =>
    match ibc.decodeUpgradeData tx_data with
    | .ok data => ibc.verify_upgrade_client client_id data
    | .error e => .error (.DecodingTxDataError e)

/-- Source `validate_client`: classify the state change of the client-state
key and dispatch; a classification other than `Created` or `Updated`
is a `StateChangeError`. -/
def Ibc.validate_client (ibc : Ibc) (client_id : String) (tx_data : Bytes) :
    Except Error Bool :=
  match ibc.get_client_state_change client_id with
  | .error e => .error e
  | .ok .Created => ibc.validate_created_client client_id
  | .ok .Updated => ibc.validate_updated_client client_id tx_data
  | .ok _ =>
    .error (.StateChangeError
      ("The state change of the client is invalid: ID " ++ client_id))

/-! ## Concrete fixtures

An in-memory instantiation of the context, used to evaluate the
predicate on concrete inputs (spec section 8's concrete scenario: one
client, one header, prior state at height 0-1, posterior at 0-2). -/

/-- The sample client id of the concrete scenario. -/
def sampleCid : String := "07-tendermint-0"

/-- The prior client state `CS0`, latest height 0-1. -/
def priorCS : ClientState := ⟨"07-tendermint", ⟨0, 1⟩, 100⟩

/-- The prior consensus state `CCS0` at height 0-1. -/
def priorCCS : ConsensusState := ⟨"07-tendermint", 200⟩

/-- The posterior client state `CS1`, latest height 0-2. -/
def postCS : ClientState := ⟨"07-tendermint", ⟨0, 2⟩, 101⟩

/-- The posterior consensus state `CCS1` at height 0-2. -/
def postCCS : ConsensusState := ⟨"07-tendermint", 201⟩

/-- The pre-transaction snapshot: client state and consensus state of
the sample client, plus the counter. -/
def sampleReadPre (k : Key) : StorageRead :=
  if k = clientStateKey sampleCid then .found [1]
  else if k = consensusStateKey sampleCid ⟨0, 1⟩ then .found [2]
  else if k = clientCounterKey then .found [9]
  else .absent

/-- The post-transaction snapshot: updated client state, the new
consensus state, the client type, and the counter. -/
def sampleReadPost (k : Key) : StorageRead :=
  if k = clientTypeKey sampleCid then .found [5]
  else if k = clientStateKey sampleCid then .found [3]
  else if k = consensusStateKey sampleCid ⟨0, 2⟩ then .found [4]
  else if k = clientCounterKey then .found [9]
  else .absent

/-- The in-memory context: byte tags 1-5 and 9 decode to the fixture
values, header 7 is the unique header accepted by the verifier (it
advances the prior state to the posterior pair), and proof pair (11,
12) is the unique accepted upgrade proof. -/
def sampleIbc : Ibc where
  read_pre := sampleReadPre
  read_post := sampleReadPost
  decodeClientType := fun b => if b = [5] then some "07-tendermint" else none
  decodeClientState := fun b =>
    if b = [1] then .ok priorCS
    else if b = [3] then .ok postCS
    else .error "bad client state bytes"
  decodeConsensusState := fun b =>
    if b = [2] then .ok priorCCS
    else if b = [4] then .ok postCCS
    else .error "bad consensus state bytes"
  decodeCounter := fun b => if b = [9] then .ok 1 else .error "bad counter bytes"
  decodeUpdateData := fun b =>
    if b = [21] then .ok ⟨.ok sampleCid, .ok [7]⟩
    else .error "not update data"
  decodeUpgradeData := fun b =>
    if b = [22] then .ok ⟨.ok sampleCid, .ok 11, .ok 12⟩
    else .error "not upgrade data"
  check_header_and_update_state := fun _ cs h =>
    if cs = priorCS ∧ h = 7 then .ok (postCS, postCCS)
    else .error "header rejected"
  verify_upgrade_and_update_state := fun _ cs _ p q =>
    if cs = priorCS ∧ p = 11 ∧ q = 12 then .ok (postCS, postCCS)
    else .error "proof rejected"

/-- The sample update payload: correct id, the single accepted header. -/
def sampleUpdateData : ClientUpdateData := ⟨.ok sampleCid, .ok [7]⟩

/-- The sample upgrade payload: correct id, the accepted proof pair. -/
def sampleUpgradeData : ClientUpgradeData := ⟨.ok sampleCid, .ok 11, .ok 12⟩

/-- A context whose post-transaction snapshot lacks the counter key. -/
def counterAbsentIbc : Ibc :=
  { sampleIbc with read_post := fun k =>
      if k = clientCounterKey then .absent else sampleReadPost k }

/-- A context whose counter key holds undecodable bytes. -/
def counterGarbageIbc : Ibc :=
  { sampleIbc with read_post := fun k =>
      if k = clientCounterKey then .found [99] else sampleReadPost k }

/-- A context whose pre-transaction snapshot is empty, so the sample
client-state key classifies as `Created`. -/
def createdIbc : Ibc := { sampleIbc with read_pre := fun _ => .absent }

/-- A context whose post-transaction snapshot is empty, so the sample
client-state key classifies as `Deleted`. -/
def deletedIbc : Ibc := { sampleIbc with read_post := fun _ => .absent }

/-- A context whose pre-transaction snapshot returns undecodable bytes
for every key. -/
def preGarbageIbc : Ibc := { sampleIbc with read_pre := fun _ => .found [99] }


/-- Evaluation of `verify_update_client` once the payload accessors and
every precondition read succeed: the result is the header fold wrapped
by the `HeaderError` constructor on failure and the value-for-value
comparison on success. -/
theorem verify_update_run (ibc : Ibc) (cid : String) (data : ClientUpdateData)
    (cs : ClientState) (ccs : ConsensusState) (pcs : ClientState)
    (pccs : ConsensusState) (hs : List Header)
    (hid : data.client_id = .ok cid)
    (hcs : ibc.client_state cid = some cs)
    (hccs : ibc.consensus_state cid cs.latest_height = some ccs)
    (hpcs : ibc.client_state_pre cid = .ok pcs)
    (hpccs : ibc.consensus_state_pre cid pcs.latest_height = .ok pccs)
    (hhs : data.headers = .ok hs) :
    ibc.verify_update_client cid data =
      match headerFold (ibc.check_header_and_update_state cs.client_type)
          (pcs, pccs) hs with
      | .ok (n, m) => .ok (decide (n = cs ∧ m = ccs))
      | .error e =>
        .error (.HeaderError ("The header is invalid: ID " ++ cid ++ ", " ++ e)) := by
  simp only [Ibc.verify_update_client, hid, hcs, hccs, hpcs, hpccs, hhs,
    ne_eq, not_true_eq_false, if_false]


/-- Evaluation of `verify_upgrade_client` once the payload accessors and
every precondition read succeed. -/
theorem verify_upgrade_run (ibc : Ibc) (cid : String) (data : ClientUpgradeData)
    (cs : ClientState) (ccs : ConsensusState) (pcs : ClientState)
    (p q : Proof)
    (hid : data.client_id = .ok cid)
    (hcs : ibc.client_state cid = some cs)
    (hccs : ibc.consensus_state cid cs.latest_height = some ccs)
    (hpcs : ibc.client_state_pre cid = .ok pcs)
    (hp : data.proof_client = .ok p)
    (hq : data.proof_consensus_state = .ok q) :
    ibc.verify_upgrade_client cid data =
      match ibc.verify_upgrade_and_update_state cs.client_type pcs ccs p q with
      | .ok (n, m) => .ok (decide (n = cs ∧ m = ccs))
      | .error e => .error (.ProofVerificationError e) := by
  simp only [Ibc.verify_upgrade_client, hid, hcs, hccs, hpcs, hp, hq,
    ne_eq, not_true_eq_false, if_false]

/-- C1: for a successfully decoded update payload, the verification is
the strictly sequential fold of the per-client-type header step over
the header sequence, started from the prior pair; the first failing
header short-circuits and the whole validation returns a `HeaderError`
naming the client id, never a boolean. -/
theorem update_fold_sequential_short_circuits (ibc : Ibc) (cid : String)
    (data : ClientUpdateData) (cs : ClientState) (ccs : ConsensusState)
    (pcs : ClientState) (pccs : ConsensusState) (hs : List Header)
    (hid : data.client_id = .ok cid)
    (hcs : ibc.client_state cid = some cs)
    (hccs : ibc.consensus_state cid cs.latest_height = some ccs)
    (hpcs : ibc.client_state_pre cid = .ok pcs)
    (hpccs : ibc.consensus_state_pre cid pcs.latest_height = .ok pccs)
    (hhs : data.headers = .ok hs) :
    (ibc.verify_update_client cid data =
      match headerFold (ibc.check_header_and_update_state cs.client_type)
          (pcs, pccs) hs with
      | .ok (n, m) => .ok (decide (n = cs ∧ m = ccs))
      | .error e =>
        .error (.HeaderError ("The header is invalid: ID " ++ cid ++ ", " ++ e))) ∧
    (∀ (f : ClientState → Header → Except String (ClientState × ConsensusState))
      (a : ClientState) (b : ConsensusState),
      headerFold f (a, b) [] = .ok (a, b)) ∧
    (∀ (f : ClientState → Header → Except String (ClientState × ConsensusState))
      (a : ClientState) (b : ConsensusState) (h : Header) (rest : List Header),
      headerFold f (a, b) (h :: rest) =
        match f a h with
        | .ok next => headerFold f next rest
        | .error e => .error e) ∧
    (∀ e, headerFold (ibc.check_header_and_update_state cs.client_type)
        (pcs, pccs) hs = .error e →
      ibc.verify_update_client cid data =
        .error (.HeaderError ("The header is invalid: ID " ++ cid ++ ", " ++ e))) := by
  have main := verify_update_run ibc cid data cs ccs pcs pccs hs
    hid hcs hccs hpcs hpccs hhs
  exact ⟨main, fun f a b => rfl, fun f a b h rest => rfl,
    fun e he => by rw [main, he]⟩

/-- Witness for C1: on the concrete scenario the update validation
succeeds and returns true, and with the second header rejected the
whole validation is the `HeaderError` naming the client id. -/
theorem update_fold_sequential_short_circuits_witness :
    sampleIbc.verify_update_client sampleCid sampleUpdateData = .ok true ∧
    sampleIbc.verify_update_client sampleCid ⟨.ok sampleCid, .ok [7, 8]⟩ =
      .error (.HeaderError
        ("The header is invalid: ID " ++ sampleCid ++ ", header rejected")) := by
  constructor
  · have h := update_fold_sequential_short_circuits sampleIbc sampleCid
      sampleUpdateData postCS postCCS priorCS priorCCS [7]
      rfl rfl rfl rfl rfl rfl
    rw [h.1]; rfl
  · have h := update_fold_sequential_short_circuits sampleIbc sampleCid
      ⟨.ok sampleCid, .ok [7, 8]⟩ postCS postCCS priorCS priorCCS [7, 8]
      rfl rfl rfl rfl rfl rfl
    exact h.2.2.2 "header rejected" rfl


/-- C4: when the header fold (update) or the proof verification
(upgrade) completes, the predicate returns true iff the produced pair
equals, value for value, the posterior `(ClientState, ConsensusState)`
pair; disagreement gives the boolean false, not an error. -/
theorem final_pair_comparison (ibc : Ibc) (cid : String) :
    (∀ (data : ClientUpdateData) (cs : ClientState) (ccs : ConsensusState)
      (pcs : ClientState) (pccs : ConsensusState) (hs : List Header)
      (n : ClientState) (m : ConsensusState),
      data.client_id = .ok cid →
      ibc.client_state cid = some cs →
      ibc.consensus_state cid cs.latest_height = some ccs →
      ibc.client_state_pre cid = .ok pcs →
      ibc.consensus_state_pre cid pcs.latest_height = .ok pccs →
      data.headers = .ok hs →
      headerFold (ibc.check_header_and_update_state cs.client_type)
        (pcs, pccs) hs = .ok (n, m) →
      ibc.verify_update_client cid data = .ok (decide (n = cs ∧ m = ccs)) ∧
      (ibc.verify_update_client cid data = .ok true ↔ (n = cs ∧ m = ccs)) ∧
      (¬(n = cs ∧ m = ccs) → ibc.verify_update_client cid data = .ok false)) ∧
    (∀ (data : ClientUpgradeData) (cs : ClientState) (ccs : ConsensusState)
      (pcs : ClientState) (p q : Proof) (n : ClientState) (m : ConsensusState),
      data.client_id = .ok cid →
      ibc.client_state cid = some cs →
      ibc.consensus_state cid cs.latest_height = some ccs →
      ibc.client_state_pre cid = .ok pcs →
      data.proof_client = .ok p →
      data.proof_consensus_state = .ok q →
      ibc.verify_upgrade_and_update_state cs.client_type pcs ccs p q = .ok (n, m) →
      ibc.verify_upgrade_client cid data = .ok (decide (n = cs ∧ m = ccs)) ∧
      (ibc.verify_upgrade_client cid data = .ok true ↔ (n = cs ∧ m = ccs)) ∧
      (¬(n = cs ∧ m = ccs) → ibc.verify_upgrade_client cid data = .ok false)) := by
  constructor
  · intro data cs ccs pcs pccs hs n m hid hcs hccs hpcs hpccs hhs hfold
    have main0 := verify_update_run ibc cid data cs ccs pcs pccs hs
      hid hcs hccs hpcs hpccs hhs
    rw [hfold] at main0
    have main : ibc.verify_update_client cid data =
        .ok (decide (n = cs ∧ m = ccs)) := main0
    refine ⟨main, ?_, ?_⟩
    · rw [main]
      constructor
      · intro h
        have := Except.ok.inj h
        exact of_decide_eq_true this
      · intro h
        rw [decide_eq_true h]
    · intro h
      rw [main, decide_eq_false h]
  · intro data cs ccs pcs p q n m hid hcs hccs hpcs hp hq hver
    have main0 := verify_upgrade_run ibc cid data cs ccs pcs p q
      hid hcs hccs hpcs hp hq
    rw [hver] at main0
    have main : ibc.verify_upgrade_client cid data =
        .ok (decide (n = cs ∧ m = ccs)) := main0
    refine ⟨main, ?_, ?_⟩
    · rw [main]
      constructor
      · intro h
        have := Except.ok.inj h
        exact of_decide_eq_true this
      · intro h
        rw [decide_eq_true h]
    · intro h
      rw [main, decide_eq_false h]

/-- Witness for C4: on the concrete scenario the update and the upgrade
validations both compare equal and return true, and an update whose
fold completes on the empty header list (leaving the prior pair, which
differs from the posterior pair) returns false, not an error. -/
theorem final_pair_comparison_witness :
    sampleIbc.verify_update_client sampleCid sampleUpdateData = .ok true ∧
    sampleIbc.verify_upgrade_client sampleCid sampleUpgradeData = .ok true ∧
    sampleIbc.verify_update_client sampleCid ⟨.ok sampleCid, .ok []⟩ = .ok false := by
  refine ⟨?_, ?_, ?_⟩
  · exact (((final_pair_comparison sampleIbc sampleCid).1 sampleUpdateData
      postCS postCCS priorCS priorCCS [7] postCS postCCS
      rfl rfl rfl rfl rfl rfl rfl).2.1).2 (by decide)
  · exact (((final_pair_comparison sampleIbc sampleCid).2 sampleUpgradeData
      postCS postCCS priorCS 11 12 postCS postCCS
      rfl rfl rfl rfl rfl rfl rfl).2.1).2 (by decide)
  · exact ((final_pair_comparison sampleIbc sampleCid).1 ⟨.ok sampleCid, .ok []⟩
      postCS postCCS priorCS priorCCS [] priorCS priorCCS
      rfl rfl rfl rfl rfl rfl rfl).2.2 (by decide)


/-- Counterexample to C2: in a post-transaction snapshot where the
client-counter key is absent, `client_counter` does not return the
minimum value — it reaches the `unreachable!()` branch, a panic. -/
theorem client_counter_absent_unreachable :
    counterAbsentIbc.read_post clientCounterKey = .absent ∧
    counterAbsentIbc.client_counter = .unreach ∧
    counterAbsentIbc.client_counter ≠ .value 0 := ⟨rfl, rfl, by decide⟩

/-- C2 amended: an undecodable counter value degrades to `u64::MIN`
(zero); an absent counter key (or a failed read) instead reaches the
`unreachable!()` panic and never returns. -/
theorem client_counter_degrade_policy (ibc : Ibc) :
    (∀ v e, ibc.read_post clientCounterKey = .found v →
      ibc.decodeCounter v = .error e → ibc.client_counter = .value 0) ∧
    (∀ v c, ibc.read_post clientCounterKey = .found v →
      ibc.decodeCounter v = .ok c → ibc.client_counter = .value c) ∧
    (ibc.read_post clientCounterKey = .absent → ibc.client_counter = .unreach) ∧
    (∀ e, ibc.read_post clientCounterKey = .failed e →
      ibc.client_counter = .unreach) := by
  refine ⟨fun v e h1 h2 => ?_, fun v c h1 h2 => ?_, fun h1 => ?_, fun e h1 => ?_⟩
  · simp only [Ibc.client_counter, h1, h2]
  · simp only [Ibc.client_counter, h1, h2]
  · simp only [Ibc.client_counter, h1]
  · simp only [Ibc.client_counter, h1]

/-- Witness for the amended C2: the garbage-counter context returns
zero, the intact context returns the stored count. -/
theorem client_counter_degrade_policy_witness :
    counterGarbageIbc.client_counter = .value 0 ∧
    sampleIbc.client_counter = .value 1 := by
  constructor
  · exact (client_counter_degrade_policy counterGarbageIbc).1 [99]
      "bad counter bytes" rfl rfl
  · exact (client_counter_degrade_policy sampleIbc).2.1 [9] 1 rfl rfl

/-- C3: `client_counter_pre` depends only on the post-transaction
snapshot's counter key (and the counter decoder): replacing the whole
pre-transaction snapshot never changes its result, and the result is
the decoded value or a `ClientError` on an absent key, failed read, or
decode failure. -/
theorem client_counter_pre_reads_only_post :
    (∀ (ibc : Ibc) (p : Key → StorageRead),
      ({ ibc with read_pre := p } : Ibc).client_counter_pre =
        ibc.client_counter_pre) ∧
    (∀ ibc ibc' : Ibc,
      ibc.read_post clientCounterKey = ibc'.read_post clientCounterKey →
      ibc.decodeCounter = ibc'.decodeCounter →
      ibc.client_counter_pre = ibc'.client_counter_pre) ∧
    (∀ (ibc : Ibc) (v : Bytes) (c : Nat),
      ibc.read_post clientCounterKey = .found v →
      ibc.decodeCounter v = .ok c → ibc.client_counter_pre = .ok c) ∧
    (∀ (ibc : Ibc) (v : Bytes) (e : String),
      ibc.read_post clientCounterKey = .found v →
      ibc.decodeCounter v = .error e →
      ibc.client_counter_pre =
        .error (.ClientError ("Decoding the client counter failed: " ++ e))) ∧
    (∀ ibc : Ibc, ibc.read_post clientCounterKey = .absent →
      ibc.client_counter_pre =
        .error (.ClientError "The client counter does not exist")) ∧
    (∀ (ibc : Ibc) (e : String), ibc.read_post clientCounterKey = .failed e →
      ibc.client_counter_pre =
        .error (.ClientError "The client counter does not exist")) := by
  refine ⟨fun ibc p => rfl, fun ibc ibc' h1 h2 => ?_,
    fun ibc v c h1 h2 => ?_, fun ibc v e h1 h2 => ?_,
    fun ibc h1 => ?_, fun ibc e h1 => ?_⟩
  · simp only [Ibc.client_counter_pre, h1, h2]
  · simp only [Ibc.client_counter_pre, h1, h2]
  · simp only [Ibc.client_counter_pre, h1, h2]
  · simp only [Ibc.client_counter_pre, h1]
  · simp only [Ibc.client_counter_pre, h1]

/-- Witness for C3: swapping in an empty pre-transaction snapshot
leaves the result unchanged, and the concrete context decodes count 1. -/
theorem client_counter_pre_reads_only_post_witness :
    sampleIbc.client_counter_pre =
      ({ sampleIbc with read_pre := fun _ => .absent } : Ibc).client_counter_pre ∧
    sampleIbc.client_counter_pre = .ok 1 := by
  constructor
  · exact client_counter_pre_reads_only_post.2.1 sampleIbc
      ({ sampleIbc with read_pre := fun _ => .absent } : Ibc) rfl rfl
  · exact client_counter_pre_reads_only_post.2.2.1 sampleIbc [9] 1 rfl rfl

/-- C5: the entry point dispatches on the classified state change:
`Created` runs the creation validator, `Updated` runs the update
validator, and any other classification is a `StateChangeError` that
never looks at the payload. -/
theorem validate_client_dispatch (ibc : Ibc) (cid : String) :
    (ibc.get_client_state_change cid = .ok .Created →
      ∀ tx : Bytes, ibc.validate_client cid tx = ibc.validate_created_client cid) ∧
    (ibc.get_client_state_change cid = .ok .Updated →
      ∀ tx : Bytes,
        ibc.validate_client cid tx = ibc.validate_updated_client cid tx) ∧
    (∀ sc : StateChange, ibc.get_client_state_change cid = .ok sc →
      (sc = .NotExists ∨ sc = .Deleted) →
      ∀ tx : Bytes, ibc.validate_client cid tx =
        .error (.StateChangeError
          ("The state change of the client is invalid: ID " ++ cid))) := by
  refine ⟨fun h tx => ?_, fun h tx => ?_, fun sc h hsc tx => ?_⟩
  · simp only [Ibc.validate_client, h]
  · simp only [Ibc.validate_client, h]
  · rcases hsc with rfl | rfl <;> simp only [Ibc.validate_client, h]

/-- Witness for C5: the three classifications on concrete contexts. -/
theorem validate_client_dispatch_witness :
    sampleIbc.validate_client sampleCid [21] =
      sampleIbc.validate_updated_client sampleCid [21] ∧
    createdIbc.validate_client sampleCid [21] =
      createdIbc.validate_created_client sampleCid ∧
    deletedIbc.validate_client sampleCid [21] =
      .error (.StateChangeError
        ("The state change of the client is invalid: ID " ++ sampleCid)) := by
  refine ⟨?_, ?_, ?_⟩
  · exact (validate_client_dispatch sampleIbc sampleCid).2.1 rfl [21]
  · exact (validate_client_dispatch createdIbc sampleCid).1 rfl [21]
  · exact (validate_client_dispatch deletedIbc sampleCid).2.2 .Deleted rfl
      (Or.inr rfl) [21]


/-- C6: creation validation requires the posterior client type, client
state, and consensus state at the client state's latest height (each
missing one is a `ClientError`), and otherwise returns true exactly
when the recorded type equals both reported types. -/
theorem validate_created_cases (ibc : Ibc) (cid : String) :
    (ibc.client_type cid = none →
      ibc.validate_created_client cid =
        .error (.ClientError ("The client type does not exist: ID " ++ cid))) ∧
    (∀ ct : ClientType, ibc.client_type cid = some ct →
      ibc.client_state cid = none →
      ibc.validate_created_client cid =
        .error (.ClientError ("The client state does not exist: ID " ++ cid))) ∧
    (∀ (ct : ClientType) (cs : ClientState), ibc.client_type cid = some ct →
      ibc.client_state cid = some cs →
      ibc.consensus_state cid cs.latest_height = none →
      ibc.validate_created_client cid =
        .error (.ClientError ("The consensus state does not exist: ID " ++
          cid ++ ", Height " ++ cs.latest_height.str))) ∧
    (∀ (ct : ClientType) (cs : ClientState) (ccs : ConsensusState),
      ibc.client_type cid = some ct →
      ibc.client_state cid = some cs →
      ibc.consensus_state cid cs.latest_height = some ccs →
      ibc.validate_created_client cid =
        .ok (decide (ct = cs.client_type ∧ ct = ccs.client_type)) ∧
      (ibc.validate_created_client cid = .ok true ↔
        (ct = cs.client_type ∧ ct = ccs.client_type))) := by
  refine ⟨fun h1 => ?_, fun ct h1 h2 => ?_, fun ct cs h1 h2 h3 => ?_,
    fun ct cs ccs h1 h2 h3 => ?_⟩
  · simp only [Ibc.validate_created_client, h1]
  · simp only [Ibc.validate_created_client, h1, h2]
  · simp only [Ibc.validate_created_client, h1, h2, h3]
  · have main : ibc.validate_created_client cid =
        .ok (decide (ct = cs.client_type ∧ ct = ccs.client_type)) := by
      simp only [Ibc.validate_created_client, h1, h2, h3]
    refine ⟨main, ?_⟩
    rw [main]
    constructor
    · intro h
      exact of_decide_eq_true (Except.ok.inj h)
    · intro h
      rw [decide_eq_true h]

/-- Witness for C6: the concrete post-transaction snapshot records the
matching type, so creation validates to true; erasing the client-type
key gives the naming `ClientError`. -/
theorem validate_created_cases_witness :
    sampleIbc.validate_created_client sampleCid = .ok true ∧
    ({ sampleIbc with read_post := fun k =>
        if k = clientTypeKey sampleCid then .absent else sampleReadPost k } :
      Ibc).validate_created_client sampleCid =
        .error (.ClientError
          ("The client type does not exist: ID " ++ sampleCid)) := by
  constructor
  · exact ((validate_created_cases sampleIbc sampleCid).2.2.2 "07-tendermint"
      postCS postCCS rfl rfl rfl).2.mpr (by decide)
  · exact (validate_created_cases _ sampleCid).1 rfl

/-- C7: an embedded client id that differs from the key's client id is
always the mismatch `ClientError`, for every context — whatever the
snapshots, the decoders and the verifiers hold — so no state read and
no verifier output can influence the outcome. -/
theorem id_mismatch_precedence :
    (∀ (ibc : Ibc) (cid id : String) (data : ClientUpdateData),
      data.client_id = .ok id → id ≠ cid →
      ibc.verify_update_client cid data =
        .error (.ClientError ("The client ID is mismatched: " ++ id ++
          " in the tx data, " ++ cid ++ " in the key"))) ∧
    (∀ (ibc : Ibc) (cid id : String) (data : ClientUpgradeData),
      data.client_id = .ok id → id ≠ cid →
      ibc.verify_upgrade_client cid data =
        .error (.ClientError ("The client ID is mismatched: " ++ id ++
          " in the tx data, " ++ cid ++ " in the key"))) := by
  constructor
  · intro ibc cid id data hid hne
    simp only [Ibc.verify_update_client, hid, ne_eq, hne, not_false_eq_true,
      if_true]
  · intro ibc cid id data hid hne
    simp only [Ibc.verify_upgrade_client, hid, ne_eq, hne, not_false_eq_true,
      if_true]

/-- Witness for C7: payloads whose header or proof the concrete
verifier would accept are still rejected with the mismatch error when
they carry a different client id. -/
theorem id_mismatch_precedence_witness :
    sampleIbc.verify_update_client sampleCid ⟨.ok "07-tendermint-1", .ok [7]⟩ =
      .error (.ClientError ("The client ID is mismatched: " ++ "07-tendermint-1" ++
        " in the tx data, " ++ sampleCid ++ " in the key")) ∧
    sampleIbc.verify_upgrade_client sampleCid ⟨.ok "07-tendermint-1", .ok 11, .ok 12⟩ =
      .error (.ClientError ("The client ID is mismatched: " ++ "07-tendermint-1" ++
        " in the tx data, " ++ sampleCid ++ " in the key")) := by
  constructor
  · have h := id_mismatch_precedence.1 sampleIbc sampleCid "07-tendermint-1"
      ⟨.ok "07-tendermint-1", .ok [7]⟩ rfl (by decide)
    rw [h]
  · have h := id_mismatch_precedence.2 sampleIbc sampleCid "07-tendermint-1"
      ⟨.ok "07-tendermint-1", .ok 11, .ok 12⟩ rfl (by decide)
    rw [h]

/-- C8: payloads under the `Updated` classification decode in a fixed
order — `ClientUpdateData` first (and then the upgrade decoder is never
consulted: replacing it cannot change the result), `ClientUpgradeData`
only after the first decode fails, and failure of both is the terminal
`DecodingTxDataError`. -/
theorem decode_order_update_first (ibc : Ibc) (cid : String) (tx : Bytes) :
    (∀ d : ClientUpdateData, ibc.decodeUpdateData tx = .ok d →
      ibc.validate_updated_client cid tx = ibc.verify_update_client cid d ∧
      ∀ g : Bytes → Except String ClientUpgradeData,
        ({ ibc with decodeUpgradeData := g } : Ibc).validate_updated_client cid tx =
          ibc.validate_updated_client cid tx) ∧
    (∀ (e : String) (d : ClientUpgradeData), ibc.decodeUpdateData tx = .error e →
      ibc.decodeUpgradeData tx = .ok d →
      ibc.validate_updated_client cid tx = ibc.verify_upgrade_client cid d) ∧
    (∀ e e2 : String, ibc.decodeUpdateData tx = .error e →
      ibc.decodeUpgradeData tx = .error e2 →
      ibc.validate_updated_client cid tx = .error (.DecodingTxDataError e2)) := by
  refine ⟨fun d h => ⟨?_, fun g => ?_⟩, fun e d h1 h2 => ?_, fun e e2 h1 h2 => ?_⟩
  · simp only [Ibc.validate_updated_client, h]
  · show ({ ibc with decodeUpgradeData := g } : Ibc).validate_updated_client cid tx =
      ibc.validate_updated_client cid tx
    simp only [Ibc.validate_updated_client, h]
    rfl
  · simp only [Ibc.validate_updated_client, h1, h2]
  · simp only [Ibc.validate_updated_client, h1, h2]

/-- Witness for C8: byte tag 21 decodes as update data and runs the
update path, byte tag 22 falls through to the upgrade path, and
unknown bytes end in the terminal decoding error. -/
theorem decode_order_update_first_witness :
    sampleIbc.validate_updated_client sampleCid [21] =
      sampleIbc.verify_update_client sampleCid ⟨.ok sampleCid, .ok [7]⟩ ∧
    sampleIbc.validate_updated_client sampleCid [22] =
      sampleIbc.verify_upgrade_client sampleCid ⟨.ok sampleCid, .ok 11, .ok 12⟩ ∧
    sampleIbc.validate_updated_client sampleCid [23] =
      .error (.DecodingTxDataError "not upgrade data") := by
  refine ⟨?_, ?_, ?_⟩
  · exact ((decode_order_update_first sampleIbc sampleCid [21]).1
      ⟨.ok sampleCid, .ok [7]⟩ rfl).1
  · exact (decode_order_update_first sampleIbc sampleCid [22]).2.1
      "not update data" ⟨.ok sampleCid, .ok 11, .ok 12⟩ rfl rfl
  · exact (decode_order_update_first sampleIbc sampleCid [23]).2.2
      "not update data" "not upgrade data" rfl rfl

/-- C9: both prior-state accessors turn an absent key, a failed storage
read, and a decode failure into a `ClientError` naming the client id
(and, for consensus state, the height). -/
theorem prior_accessors_hard_errors (ibc : Ibc) (cid : String) (ht : Height) :
    (ibc.read_pre (clientStateKey cid) = .absent →
      ibc.client_state_pre cid =
        .error (.ClientError ("The prior client state does not exist: ID " ++ cid))) ∧
    (∀ e : String, ibc.read_pre (clientStateKey cid) = .failed e →
      ibc.client_state_pre cid =
        .error (.ClientError ("The prior client state does not exist: ID " ++ cid))) ∧
    (∀ (v : Bytes) (e : String), ibc.read_pre (clientStateKey cid) = .found v →
      ibc.decodeClientState v = .error e →
      ibc.client_state_pre cid =
        .error (.ClientError
          ("Decoding the client state failed: ID " ++ cid ++ ", " ++ e))) ∧
    (ibc.read_pre (consensusStateKey cid ht) = .absent →
      ibc.consensus_state_pre cid ht =
        .error (.ClientError ("The prior consensus state does not exist: ID " ++
          cid ++ ", Height " ++ ht.str))) ∧
    (∀ e : String, ibc.read_pre (consensusStateKey cid ht) = .failed e →
      ibc.consensus_state_pre cid ht =
        .error (.ClientError ("The prior consensus state does not exist: ID " ++
          cid ++ ", Height " ++ ht.str))) ∧
    (∀ (v : Bytes) (e : String),
      ibc.read_pre (consensusStateKey cid ht) = .found v →
      ibc.decodeConsensusState v = .error e →
      ibc.consensus_state_pre cid ht =
        .error (.ClientError ("Decoding the consensus state failed: ID " ++
          cid ++ ", Height " ++ ht.str ++ ", " ++ e))) := by
  refine ⟨fun h1 => ?_, fun e h1 => ?_, fun v e h1 h2 => ?_,
    fun h1 => ?_, fun e h1 => ?_, fun v e h1 h2 => ?_⟩
  · simp only [Ibc.client_state_pre, h1]
  · simp only [Ibc.client_state_pre, h1]
  · simp only [Ibc.client_state_pre, h1, h2]
  · simp only [Ibc.consensus_state_pre, h1]
  · simp only [Ibc.consensus_state_pre, h1]
  · simp only [Ibc.consensus_state_pre, h1, h2]

/-- Witness for C9: the empty and the undecodable pre-transaction
snapshots each produce the naming `ClientError`. -/
theorem prior_accessors_hard_errors_witness :
    createdIbc.client_state_pre sampleCid =
      .error (.ClientError
        ("The prior client state does not exist: ID " ++ sampleCid)) ∧
    preGarbageIbc.client_state_pre sampleCid =
      .error (.ClientError ("Decoding the client state failed: ID " ++
        sampleCid ++ ", " ++ "bad client state bytes")) ∧
    createdIbc.consensus_state_pre sampleCid ⟨0, 1⟩ =
      .error (.ClientError ("The prior consensus state does not exist: ID " ++
        sampleCid ++ ", Height " ++ (⟨0, 1⟩ : Height).str)) := by
  refine ⟨?_, ?_, ?_⟩
  · exact (prior_accessors_hard_errors createdIbc sampleCid ⟨0, 1⟩).1 rfl
  · exact (prior_accessors_hard_errors preGarbageIbc sampleCid ⟨0, 1⟩).2.2.1
      [99] "bad client state bytes" rfl rfl
  · exact (prior_accessors_hard_errors createdIbc sampleCid ⟨0, 1⟩).2.2.2.1 rfl


/-- C10: extracting the client id from any key the path codec builds
from a well-formed client id returns exactly that id, and a key whose
third segment is absent or unparsable yields a `KeyError` value (no
panic: extraction is total into the error type). -/
theorem client_id_roundtrip :
    (∀ X : String, validClientId X = true →
      get_client_id (clientStateKey X) = .ok X ∧
      get_client_id (clientTypeKey X) = .ok X ∧
      ∀ h : Height, get_client_id (consensusStateKey X h) = .ok X) ∧
    (∀ key : Key, key.segments.get? 2 = none →
      ∃ m, get_client_id key = .error (.KeyError m)) ∧
    (∀ (key : Key) (id : String), key.segments.get? 2 = some id →
      validClientId id = false →
      ∃ m, get_client_id key = .error (.KeyError m)) := by
  refine ⟨fun X hX => ?_, fun key h => ?_, fun key id h hv => ?_⟩
  · have h1 : ¬(X = "") := by
      intro h
      rw [validClientId, h] at hX
      simp at hX
    have h2 : ¬(X.data.contains '/' = true) := by
      intro h
      rw [validClientId, h] at hX
      simp at hX
    refine ⟨?_, ?_, fun ht => ?_⟩ <;>
      simp only [get_client_id, clientStateKey, clientTypeKey,
        consensusStateKey, List.get?, clientIdFromStr, h1, h2] <;> rfl
  · exact ⟨"The key does not have a client ID: " ++ key.str,
      by simp only [get_client_id, h]⟩
  · by_cases he : id = ""
    · refine ⟨"empty client id", ?_⟩
      simp only [get_client_id, h, clientIdFromStr, he]
      rfl
    · have hc : id.data.contains '/' = true := by
        cases hcb : id.data.contains '/' with
        | true => rfl
        | false =>
          rw [validClientId, hcb] at hv
          simp [he] at hv
      refine ⟨"invalid client id: " ++ id, ?_⟩
      simp only [get_client_id, h, clientIdFromStr, if_neg he, hc]
      rfl


/-- Witness for C10: the sample client id round-trips through all three
key shapes, and a truncated key or an empty id segment lands in the
error branch. -/
theorem client_id_roundtrip_witness :
    get_client_id (clientStateKey "07-tendermint-0") = .ok "07-tendermint-0" ∧
    get_client_id (clientTypeKey "07-tendermint-0") = .ok "07-tendermint-0" ∧
    get_client_id (consensusStateKey "07-tendermint-0" ⟨0, 1⟩) =
      .ok "07-tendermint-0" ∧
    get_client_id (⟨["ibc", "clients"]⟩ : Key) ≠ .ok "07-tendermint-0" ∧
    get_client_id (⟨["ibc", "clients", ""]⟩ : Key) ≠ .ok "" := by
  have h := client_id_roundtrip.1 "07-tendermint-0" (by decide)
  refine ⟨h.1, h.2.1, h.2.2 ⟨0, 1⟩, ?_, ?_⟩
  · obtain ⟨m, hm⟩ := client_id_roundtrip.2.1 ⟨["ibc", "clients"]⟩ rfl
    rw [hm]
    intro hbad
    exact Except.noConfusion hbad
  · obtain ⟨m, hm⟩ := client_id_roundtrip.2.2 ⟨["ibc", "clients", ""]⟩ "" rfl rfl
    rw [hm]
    intro hbad
    exact Except.noConfusion hbad

end IbcClient
